import Mathlib

/-!
Shallow embedding of the supervisor reconciliation logic of
`clk_recipe_supervisor` (src/python/supervisor.py) and proofs about it.

The file-system state that the `Supervisor` class reads and writes is
modelled explicitly: the config file, pid file and port file as optional
contents (`Option Nat`), the modification times of the resolved included
files as a list of naturals.  External effects (shutting the daemon down,
writing files, starting the daemon, deleting the pid file, removing the
location directory) are recorded as a list of `Action`s.  Python
exceptions (`FileNotFoundError` from `os.stat` on a missing config file,
`ValueError` from `max` on an empty sequence) are modelled with an error
type threaded through the results.
-/

namespace Supervisor

/-- File-system state observed and mutated by a `Supervisor` instance.
`confMtime`: modification time of `supervisord.conf` if it exists;
`pidFile`: the pid recorded in `supervisord.pid` if it exists;
`portFile`: the port recorded in `port.txt` if it exists;
`resolvedMtimes`: modification times of the resolved included files
(resolution only yields existing files, so each can be stat'd). -/
structure FS where
  confMtime : Option Nat
  pidFile : Option Nat
  portFile : Option Nat
  resolvedMtimes : List Nat
  deriving DecidableEq, Repr

/-- External effects performed by the supervisor code. -/
inductive Action where
  | shutdown
  | writePortFile (p : Nat)
  | writeConfFile
  | startDaemon
  | deletePidFile
  | removeLocation
  deriving DecidableEq, Repr

/-- Python exceptions raised by `needs_new_config`:
`confStat` is the `FileNotFoundError` raised by `os.stat(self.conf_file)`
when the config file does not exist; `emptyMax` is the `ValueError`
raised by `max([])` when there are no resolved files. -/
inductive StatErr where
  | confStat
  | emptyMax
  deriving DecidableEq, Repr

/-- `max` over a nonempty list, as Python computes it: written as a fold
with neutral element 0 (all modification times are naturals, so this
agrees with Python `max` on nonempty lists; the empty list is routed to
the `ValueError` before this is called). -/
def listMax (l : List Nat) : Nat := l.foldr max 0

/-- `Supervisor.port` (lines 41-44): the content of `port.txt` if the
file exists, `None` otherwise. -/
def port (st : FS) : Option Nat := st.portFile

/-- How Python's f-string renders `self.port`: the integer, or the text
`None` when the port file is absent. -/
def portStr : Option Nat → String
  | some p => toString p
  | none => "None"

/-- `Supervisor.configuration` (lines 46-74): the rendered supervisord
configuration text, a pure function of the socket path, port, log file,
pid file, location and resolved included files. -/
def configuration (socketFile : String) (p : Option Nat)
    (logFile pidFilePath location : String) (resolvedFiles : List String) :
    String :=
  "\n[unix_http_server]\nfile=" ++ socketFile ++
  "\n\n[inet_http_server]\nport=:" ++ portStr p ++
  "\n\n[supervisord]\nlogfile=" ++ logFile ++
  "\nlogfile_maxbytes=50MB\nlogfile_backups=10\nloglevel=info\npidfile=" ++
  pidFilePath ++
  "\nnodaemon=false\nminfds=1024\nminprocs=200\nchildlogdir=" ++ location ++
  "\n\n[rpcinterface:supervisor]\nsupervisor.rpcinterface_factory = supervisor.rpcinterface:make_main_rpcinterface\n\n[supervisorctl]\nserverurl=unix://" ++
  socketFile ++
  "\n\n[include]\nfiles = " ++ String.intercalate " " resolvedFiles ++ "\n"

/-- `Supervisor.needs_new_config` (lines 76-77):
`os.stat(self.conf_file).st_mtime < max([os.stat(f).st_mtime for f in resolved_files])`.
Python evaluates `os.stat(self.conf_file)` first, so a missing config
file raises `FileNotFoundError` before the emptiness of the resolved
list can raise `ValueError`. -/
def needs_new_config (st : FS) : Except StatErr Bool :=
  match st.confMtime with
  | none => .error .confStat
  | some m =>
    match st.resolvedMtimes with
    | [] => .error .emptyMax
    | l => .ok (decide (m < listMax l))

/-- `Supervisor.create_config` (lines 79-86): allocate
`find_available_port(9001)` (the result is the parameter `avail`), write
it to the port file, then write the configuration to the config file
(stamping its modification time with the current time `t`). -/
def create_config (avail t : Nat) (st : FS) : FS × List Action :=
  ({st with portFile := some avail, confMtime := some t},
   [Action.writePortFile avail, Action.writeConfFile])

/-- The configuration text written by `create_config`: the render reads
`self.port` from the port file, which was just overwritten with the
freshly allocated port. -/
def create_config_text (socketFile logFile pidFilePath location : String)
    (resolvedFiles : List String) (avail t : Nat) (st : FS) : String :=
  configuration socketFile (port (create_config avail t st).1) logFile
    pidFilePath location resolvedFiles

/-- `Supervisor.check_and_clean_pid` (lines 120-127): if the pid file
exists, probe the recorded pid with `os.kill(pid, 0)`; on `OSError`
(no such process) delete the pid file. -/
def check_and_clean_pid (alive : Nat → Bool) (st : FS) : FS × List Action :=
  match st.pidFile with
  | some pid =>
    if alive pid then (st, []) else
      ({st with pidFile := none}, [Action.deletePidFile])
  | none => (st, [])

/-- `Supervisor.run` (lines 129-144), acting on the post-construction
(post-self-heal) state. `avail` is the port `find_available_port(9001)`
would return, `dpid` the pid the launched daemon records in the pid
file, `t` the modification time stamped on a config write.  The result
is the final state, the list of performed effects, and either the raised
exception or the returned boolean. -/
def run (avail dpid t : Nat) (st : FS) :
    FS × List Action × Except StatErr Bool :=
  match needs_new_config st with
  | .error e => (st, [], .error e)
  | .ok needs =>
    if st.pidFile.isSome && !needs then (st, [], .ok false)
    else
      let shutActs := if st.pidFile.isSome then [Action.shutdown] else []
      let (st1, createActs) :=
        if needs then create_config avail t st else (st, [])
      ({st1 with pidFile := some dpid},
       shutActs ++ createActs ++ [Action.startDaemon], .ok true)

/-- A complete `run` invocation: construction (`__init__`, lines 31-39)
performs the self-heal `check_and_clean_pid` before `run` executes. -/
def fullRun (alive : Nat → Bool) (avail dpid t : Nat) (st : FS) :
    FS × List Action × Except StatErr Bool :=
  let healed := check_and_clean_pid alive st
  let r := run avail dpid t healed.1
  (r.1, healed.2 ++ r.2.1, r.2.2)

/-- The `clean` command (lines 321-327): erase the location directory
when forced or confirmed. -/
def clean (force confirmed : Bool) : List Action :=
  if force || confirmed then [Action.removeLocation] else []

/-- A file reference declared by a profile (a configuration layer), as
seen by `resolved_files`: whether the path is absolute, its text, and
whether the candidate paths `location/name` and `project/name` exist on
disk (the environment facts the code queries with `.exists()`). -/
structure FileRef where
  absolute : Bool
  name : String
  existsInLayer : Bool
  existsInProject : Bool
  deriving DecidableEq, Repr

/-- An enabled directory profile: its (resolved) location and the file
references its `supervisor.files` setting declares, in order. -/
structure Profile where
  location : String
  files : List FileRef
  deriving DecidableEq, Repr

/-- One iteration of the inner loop of `resolved_files` (lines 99-109):
the yielded paths and the emitted warnings for one file reference of a
profile at `loc`, given the configured project directory (if any). -/
def resolveRef (project : Option String) (loc : String) (f : FileRef) :
    List String × List String :=
  if !f.absolute then
    if f.existsInLayer then ([loc ++ "/" ++ f.name], [])
    else
      match project with
      | some p =>
        if f.existsInProject then ([p ++ "/" ++ f.name], [])
        else ([], [loc ++ "/" ++ f.name ++ " does not exist anymore"])
      | none => ([], [loc ++ "/" ++ f.name ++ " does not exist anymore"])
  else ([], [])

/-- `Supervisor.resolved_files` (lines 96-109): iterate over the enabled
profiles in order and over each profile's declared files in order,
collecting the yielded absolute paths and the warnings. -/
def resolved_files (project : Option String) (profiles : List Profile) :
    List String × List String :=
  profiles.foldl
    (fun acc pr =>
      pr.files.foldl
        (fun acc2 f =>
          let r := resolveRef project pr.location f
          (acc2.1 ++ r.1, acc2.2 ++ r.2))
        acc)
    ([], [])

/-- `startsWith pat s`: `pat` is a prefix of `s` (on character lists). -/
def startsWith : List Char → List Char → Bool
  | [], _ => true
  | _ :: _, [] => false
  | a :: as, b :: bs => a == b && startsWith as bs

/-- `hasInfix pat s`: `pat` occurs as a contiguous substring of `s`. -/
def hasInfix (pat : List Char) : List Char → Bool
  | [] => startsWith pat []
  | b :: bs => startsWith pat (b :: bs) || hasInfix pat bs

end Supervisor

open Supervisor

/-! ### Helper lemmas -/

/-- `listMax` bounds an element-wise comparison: `m < listMax l` exactly
when some element of `l` exceeds `m`. -/
lemma lt_listMax_iff (m : Nat) (l : List Nat) :
    m < listMax l ↔ ∃ x ∈ l, m < x := by
  induction l with
  | nil => simp [listMax]
  | cons a t ih =>
    show m < max a (listMax t) ↔ _
    rw [lt_max_iff, ih]
    simp [List.mem_cons, exists_eq_or_imp]

/-- `listMax l ≤ t` exactly when every element of `l` is at most `t`. -/
lemma listMax_le_iff (t : Nat) (l : List Nat) :
    listMax l ≤ t ↔ ∀ x ∈ l, x ≤ t := by
  induction l with
  | nil => simp [listMax]
  | cons a s ih =>
    show max a (listMax s) ≤ t ↔ _
    rw [max_le_iff, ih]
    simp [List.mem_cons]

/-- Eliminating a successful staleness check: the config file has a
modification time, the resolved list is nonempty, and the boolean is the
comparison against the maximum. -/
lemma needs_ok_elim (st : FS) (b : Bool)
    (h : needs_new_config st = .ok b) :
    ∃ m, st.confMtime = some m ∧ st.resolvedMtimes ≠ [] ∧
      b = decide (m < listMax st.resolvedMtimes) := by
  unfold needs_new_config at h
  cases hc : st.confMtime with
  | none => rw [hc] at h; exact absurd h (by simp)
  | some m =>
    rw [hc] at h
    cases hr : st.resolvedMtimes with
    | nil => rw [hr] at h; exact absurd h (by simp)
    | cons x xs =>
      rw [hr] at h
      refine ⟨m, rfl, by simp, ?_⟩
      exact (Except.ok.inj h).symm

/-- Introducing a successful staleness check from the state's fields. -/
lemma needs_ok_intro (st : FS) (m : Nat)
    (hc : st.confMtime = some m) (hr : st.resolvedMtimes ≠ []) :
    needs_new_config st = .ok (decide (m < listMax st.resolvedMtimes)) := by
  unfold needs_new_config
  rw [hc]
  cases h : st.resolvedMtimes with
  | nil => exact absurd h hr
  | cons x xs => rw [← h]; rw [h]

/-- Shape of a `run` result that returned `True` ("started"): the pid
file now records the daemon pid, the resolved files are untouched and
nonempty, and the config file either was just rewritten (mtime `t`) or
already existed and was not stale. -/
lemma run_ok_true_shape (avail dpid t : Nat) (st st₁ : FS)
    (hfst : (run avail dpid t st).1 = st₁)
    (hres : (run avail dpid t st).2.2 = .ok true) :
    st₁.pidFile = some dpid ∧ st₁.resolvedMtimes = st.resolvedMtimes ∧
    st.resolvedMtimes ≠ [] ∧
    (st₁.confMtime = some t ∨
      ∃ m, st₁.confMtime = some m ∧ ¬ (m < listMax st.resolvedMtimes)) := by
  unfold run at hfst hres
  cases hn : needs_new_config st with
  | error e => rw [hn] at hres; exact absurd hres (by simp)
  | ok needs =>
    rw [hn] at hfst hres
    dsimp only at hfst hres
    obtain ⟨m, hc, hne, hb⟩ := needs_ok_elim st needs hn
    by_cases hcond : (st.pidFile.isSome && !needs) = true
    · rw [if_pos hcond] at hres; exact absurd hres (by simp)
    · rw [if_neg hcond] at hfst
      cases needs with
      | true =>
        refine ⟨?_, ?_, hne, .inl ?_⟩ <;>
          simp [create_config, ← hfst]
      | false =>
        refine ⟨?_, ?_, hne, .inr ⟨m, ?_, ?_⟩⟩
        · simp [← hfst]
        · simp [← hfst]
        · simp [← hfst, hc]
        · exact of_decide_eq_false hb.symm

/-- The actions of the self-heal step are at most a pid-file deletion. -/
lemma heal_acts_sub (alive : Nat → Bool) (st : FS) :
    ∀ a ∈ (check_and_clean_pid alive st).2, a = Action.deletePidFile := by
  unfold check_and_clean_pid
  cases st.pidFile with
  | none => simp
  | some p =>
    by_cases h : alive p = true
    · simp [h]
    · simp [Bool.eq_false_iff.mpr h]

/-- The actions of `run` are at most: shutdown, a port-file write, a
config-file write, a daemon start. -/
lemma run_acts_sub (avail dpid t : Nat) (st : FS) :
    ∀ a ∈ (run avail dpid t st).2.1,
      a = Action.shutdown ∨ a = Action.writePortFile avail ∨
      a = Action.writeConfFile ∨ a = Action.startDaemon := by
  unfold run
  cases hn : needs_new_config st with
  | error e => simp
  | ok needs =>
    dsimp only
    by_cases hcond : (st.pidFile.isSome && !needs) = true
    · rw [if_pos hcond]; simp
    · rw [if_neg hcond]
      cases needs <;> cases hp : st.pidFile.isSome <;>
        simp [create_config]

/-- The self-heal step changes at most the pid file. -/
lemma heal_fields (alive : Nat → Bool) (st : FS) :
    (check_and_clean_pid alive st).1.confMtime = st.confMtime ∧
    (check_and_clean_pid alive st).1.portFile = st.portFile ∧
    (check_and_clean_pid alive st).1.resolvedMtimes = st.resolvedMtimes := by
  unfold check_and_clean_pid
  cases st.pidFile with
  | none => exact ⟨rfl, rfl, rfl⟩
  | some p =>
    by_cases h : alive p = true
    · simp [h]
    · simp [Bool.eq_false_iff.mpr h]

/-! ### Claim theorems -/

/-- C1: `run` follows the decision table exactly.  When the pid file
exists (after self-heal) and the config is not stale, `run` performs no
action and returns `False` ("already running").  When the pid file
exists and the config is stale, `run` shuts the daemon down, rewrites
the config (port-file write then config-file write) and starts the
daemon, returning `True`.  When the pid file does not exist, `run`
rewrites the config only when it is stale, starts the daemon, and
returns `True`. -/
theorem run_decision_table (avail dpid t : Nat) (st : FS) :
    (st.pidFile.isSome = true → needs_new_config st = .ok false →
      run avail dpid t st = (st, [], .ok false)) ∧
    (st.pidFile.isSome = true → needs_new_config st = .ok true →
      run avail dpid t st =
        ({st with
            portFile := some avail
            confMtime := some t
            pidFile := some dpid},
         [Action.shutdown, Action.writePortFile avail, Action.writeConfFile,
          Action.startDaemon], .ok true)) ∧
    (st.pidFile = none →
      (needs_new_config st = .ok true →
        run avail dpid t st =
          ({st with
              portFile := some avail
              confMtime := some t
              pidFile := some dpid},
           [Action.writePortFile avail, Action.writeConfFile,
            Action.startDaemon], .ok true)) ∧
      (needs_new_config st = .ok false →
        run avail dpid t st =
          ({st with pidFile := some dpid}, [Action.startDaemon], .ok true))) := by
  refine ⟨fun h1 h2 => ?_, fun h1 h2 => ?_,
    fun h1 => ⟨fun h2 => ?_, fun h2 => ?_⟩⟩ <;>
    · unfold run
      rw [h2]
      simp [h1, create_config]

/-- C1 witness: a state with no pid file and a stale config ends in a
rewrite plus start. -/
theorem run_decision_table_witness :
    run 9001 42 10 ⟨some 3, none, none, [5]⟩ =
      (⟨some 10, some 42, some 9001, [5]⟩,
       [Action.writePortFile 9001, Action.writeConfFile, Action.startDaemon],
       .ok true) :=
  ((run_decision_table 9001 42 10 ⟨some 3, none, none, [5]⟩).2.2 rfl).1 rfl

/-- C2: contrary to the spec, a missing config file is not treated as
"needs new config": `needs_new_config` propagates the
`FileNotFoundError` of `os.stat(self.conf_file)` and `run` aborts
without creating anything.  Evaluated on a fresh state (no config, no
pid, no port, one included file). -/
theorem run_missing_config_raises :
    needs_new_config ⟨none, none, none, [5]⟩ = .error .confStat ∧
    run 9001 42 10 ⟨none, none, none, [5]⟩ =
      (⟨none, none, none, [5]⟩, [], .error .confStat) ∧
    fullRun (fun _ => true) 9001 42 10 ⟨none, none, none, [5]⟩ =
      (⟨none, none, none, [5]⟩, [], .error .confStat) :=
  ⟨rfl, rfl, rfl⟩

/-- C3: contrary to the spec, an absolute file reference is never
yielded by `resolved_files` — the loop body only handles relative
references, so an absolute reference is dropped without even a warning
(the existence flags are irrelevant: the code never consults them for an
absolute reference). -/
theorem resolved_files_drops_absolute :
    resolved_files (some "/proj")
      [⟨"/layer", [⟨true, "/abs/a.conf", true, true⟩]⟩] = ([], []) ∧
    resolved_files none [⟨"/layer", [⟨false, "rel.conf", true, true⟩]⟩] =
      (["/layer/rel.conf"], []) :=
  ⟨rfl, rfl⟩

/-- C4 counterexample: a config rewrite does not reuse the persisted
port.  With `port.txt` holding 9005 and `find_available_port(9001)`
returning 9001, `create_config` overwrites the port file with 9001. -/
theorem create_config_ignores_persisted_port :
    port ⟨some 3, none, some 9005, [1]⟩ = some 9005 ∧
    (create_config 9001 7 ⟨some 3, none, some 9005, [1]⟩).1.portFile =
      some 9001 ∧
    (9001 : Nat) ≠ 9005 :=
  ⟨rfl, rfl, by decide⟩

/-- C4 amended: operations that do not rewrite the config read the
persisted port from the port file (and a non-rewriting `run` leaves the
port file untouched), while every config rewrite allocates a fresh
first-available port at or above 9001, persists it before rendering, and
renders the configuration with that newly allocated port; a fresh
instance with no port file obtains its port the same way during its
first config rewrite. -/
theorem port_allocation_spec (socketFile logFile pidFilePath location : String)
    (files : List String) (avail dpid t : Nat) (st : FS)
    (hpid : st.pidFile.isSome = true)
    (hok : needs_new_config st = .ok false) :
    port st = st.portFile ∧
    (create_config avail t st).1.portFile = some avail ∧
    create_config_text socketFile logFile pidFilePath location files avail t st =
      configuration socketFile (some avail) logFile pidFilePath location files ∧
    run avail dpid t st = (st, [], .ok false) := by
  refine ⟨rfl, rfl, rfl, ?_⟩
  unfold run
  rw [hok]
  simp [hpid]

/-- C4 witness: instantiated at a running instance with fresh config. -/
theorem port_allocation_spec_witness :
    port ⟨some 9, some 1, some 9005, [3]⟩ =
      (FS.mk (some 9) (some 1) (some 9005) [3]).portFile ∧
    (create_config 9001 10 ⟨some 9, some 1, some 9005, [3]⟩).1.portFile =
      some 9001 ∧
    create_config_text "/x/s" "/x/l" "/x/p" "/x" ["/x/a"] 9001 10
        ⟨some 9, some 1, some 9005, [3]⟩ =
      configuration "/x/s" (some 9001) "/x/l" "/x/p" "/x" ["/x/a"] ∧
    run 9001 42 10 ⟨some 9, some 1, some 9005, [3]⟩ =
      (⟨some 9, some 1, some 9005, [3]⟩, [], .ok false) :=
  port_allocation_spec "/x/s" "/x/l" "/x/p" "/x" ["/x/a"] 9001 42 10
    ⟨some 9, some 1, some 9005, [3]⟩ rfl rfl

set_option maxRecDepth 10000 in
/-- C5 counterexample: the rendered configuration for the fixed inputs
does not contain the text `include = /x/a.conf /y/b.conf` anywhere (the
include section's key is `files`, not `include`). -/
theorem configuration_no_include_line :
    hasInfix ("include = /x/a.conf /y/b.conf").data
      (configuration "/x/supervisord.sock" (some 9001) "/x/supervisord.log"
        "/x/supervisord.pid" "/x" ["/x/a.conf", "/y/b.conf"]).data = false := by
  decide

set_option maxRecDepth 10000 in
/-- C5 amended: for the fixed inputs the rendered configuration text is
a pure function of the inputs, equal to one fixed byte string, and it
contains the line `files = /x/a.conf /y/b.conf` under the `[include]`
section header. -/
theorem configuration_fixed_render :
    configuration "/x/supervisord.sock" (some 9001) "/x/supervisord.log"
        "/x/supervisord.pid" "/x" ["/x/a.conf", "/y/b.conf"] =
      "\n[unix_http_server]\nfile=/x/supervisord.sock\n\n[inet_http_server]\nport=:9001\n\n[supervisord]\nlogfile=/x/supervisord.log\nlogfile_maxbytes=50MB\nlogfile_backups=10\nloglevel=info\npidfile=/x/supervisord.pid\nnodaemon=false\nminfds=1024\nminprocs=200\nchildlogdir=/x\n\n[rpcinterface:supervisor]\nsupervisor.rpcinterface_factory = supervisor.rpcinterface:make_main_rpcinterface\n\n[supervisorctl]\nserverurl=unix:///x/supervisord.sock\n\n[include]\nfiles = /x/a.conf /y/b.conf\n" ∧
    hasInfix ("[include]\nfiles = /x/a.conf /y/b.conf\n").data
      (configuration "/x/supervisord.sock" (some 9001) "/x/supervisord.log"
        "/x/supervisord.pid" "/x" ["/x/a.conf", "/y/b.conf"]).data = true :=
  ⟨by rfl, by decide⟩

/-- C6: when the config file exists and the resolved list is nonempty,
the staleness check reports stale exactly when some resolved included
file has a modification time strictly newer than the config file's. -/
theorem needs_new_config_iff_newer (st : FS) (m : Nat)
    (hc : st.confMtime = some m) (hr : st.resolvedMtimes ≠ []) :
    needs_new_config st = .ok true ↔ ∃ x ∈ st.resolvedMtimes, m < x := by
  rw [needs_ok_intro st m hc hr, ← lt_listMax_iff]
  simp

/-- C6 witness: config at mtime 3, included files at mtimes 2 and 5. -/
theorem needs_new_config_iff_newer_witness :
    needs_new_config ⟨some 3, none, none, [2, 5]⟩ = .ok true ↔
      ∃ x ∈ (FS.mk (some 3) none none [2, 5]).resolvedMtimes, 3 < x :=
  needs_new_config_iff_newer ⟨some 3, none, none, [2, 5]⟩ 3 rfl (by simp)

/-- C7: the self-heal of construction: after `check_and_clean_pid` the
pid file exists only if the probed process is alive; a pid file whose
process is alive is left untouched (no state change, no action), and a
pid file whose process is dead is deleted. -/
theorem check_and_clean_pid_spec (alive : Nat → Bool) (st : FS) :
    (∀ p, (check_and_clean_pid alive st).1.pidFile = some p →
      alive p = true) ∧
    (∀ p, st.pidFile = some p → alive p = true →
      check_and_clean_pid alive st = (st, [])) ∧
    (∀ p, st.pidFile = some p → alive p = false →
      check_and_clean_pid alive st =
        ({st with pidFile := none}, [Action.deletePidFile])) := by
  refine ⟨?_, ?_, ?_⟩
  · intro p h
    unfold check_and_clean_pid at h
    cases hp : st.pidFile with
    | none => rw [hp] at h; dsimp only at h; rw [hp] at h; exact absurd h (by simp)
    | some q =>
      rw [hp] at h
      dsimp only at h
      by_cases ha : alive q = true
      · rw [if_pos ha] at h
        dsimp only at h
        rw [hp] at h
        cases h
        exact ha
      · rw [if_neg ha] at h
        exact absurd h (by simp)
  · intro p hp ha
    unfold check_and_clean_pid
    rw [hp]
    simp [ha]
  · intro p hp ha
    unfold check_and_clean_pid
    rw [hp]
    simp [ha]

/-- C7 witness: a pid file recording the live process 7 is untouched
by the self-heal step. -/
theorem check_and_clean_pid_spec_witness :
    check_and_clean_pid (fun p => decide (p = 7)) ⟨some 3, some 7, none, []⟩ =
      (⟨some 3, some 7, none, []⟩, []) :=
  (check_and_clean_pid_spec (fun p => decide (p = 7))
    ⟨some 3, some 7, none, []⟩).2.1 7 rfl (by decide)

/-- C8: idempotence of `run`.  If a full invocation (self-heal followed
by `run`) returned `True` ("started"), then a second full invocation on
the resulting state — with no intervening file changes, the started
daemon still alive, and the included files not stamped in the future of
the first config write — performs no self-heal deletion, no config
rewrite, no shutdown and no daemon start, and returns `False` ("already
running"). -/
theorem run_idempotent (alive₁ alive₂ : Nat → Bool)
    (avail₁ avail₂ dpid₁ dpid₂ t₁ t₂ : Nat)
    (st st₁ : FS) (acts : List Action)
    (h1 : fullRun alive₁ avail₁ dpid₁ t₁ st = (st₁, acts, .ok true))
    (h2 : alive₂ dpid₁ = true)
    (h3 : ∀ m ∈ st.resolvedMtimes, m ≤ t₁) :
    fullRun alive₂ avail₂ dpid₂ t₂ st₁ = (st₁, [], .ok false) := by
  have hfst : (run avail₁ dpid₁ t₁ (check_and_clean_pid alive₁ st).1).1 = st₁ :=
    congrArg Prod.fst h1
  have hss : (run avail₁ dpid₁ t₁ (check_and_clean_pid alive₁ st).1).2.2 =
      .ok true :=
    congrArg (fun x => x.2.2) h1
  obtain ⟨hc0, hp0, hr0⟩ := heal_fields alive₁ st
  obtain ⟨hpid1, hres1, hne1, hconf1⟩ :=
    run_ok_true_shape avail₁ dpid₁ t₁ (check_and_clean_pid alive₁ st).1 st₁
      hfst hss
  have hres : st₁.resolvedMtimes = st.resolvedMtimes := by
    rw [hres1, hr0]
  have hne : st₁.resolvedMtimes ≠ [] := by
    rw [hres]; rw [hr0] at hne1; exact hne1
  have hneeds : needs_new_config st₁ = .ok false := by
    rcases hconf1 with h | ⟨m, hm, hlt⟩
    · rw [needs_ok_intro st₁ t₁ h hne]
      have hle : listMax st₁.resolvedMtimes ≤ t₁ := by
        rw [hres]
        exact (listMax_le_iff t₁ st.resolvedMtimes).mpr h3
      simp [Nat.not_lt.mpr hle]
    · rw [needs_ok_intro st₁ m hm hne]
      rw [hr0, ← hres] at hlt
      simp [hlt]
  have hheal : check_and_clean_pid alive₂ st₁ = (st₁, []) := by
    unfold check_and_clean_pid
    rw [hpid1]
    simp [h2]
  show ((run avail₂ dpid₂ t₂ (check_and_clean_pid alive₂ st₁).1).1,
    (check_and_clean_pid alive₂ st₁).2 ++ _, _) = _
  rw [hheal]
  unfold run
  rw [hneeds]
  simp [hpid1]

/-- C8 witness: starting from a fresh-but-statable state, the first
invocation starts the daemon and the second reports "already running"
with no actions. -/
theorem run_idempotent_witness :
    fullRun (fun _ => true) 9002 43 11 ⟨some 10, some 42, some 9001, [5]⟩ =
      (⟨some 10, some 42, some 9001, [5]⟩, [], .ok false) :=
  run_idempotent (fun _ => false) (fun _ => true) 9001 9002 42 43 10 11
    ⟨some 3, none, none, [5]⟩ ⟨some 10, some 42, some 9001, [5]⟩
    [Action.writePortFile 9001, Action.writeConfFile, Action.startDaemon]
    rfl rfl (by decide)

/-- C9: frame property of a full `run` invocation: every performed
effect is a daemon shutdown, a port-file write, a config-file write, a
daemon start or a pid-file deletion; the location directory is never
removed — only the separate explicit `clean` command does that. -/
theorem run_frame (alive : Nat → Bool) (avail dpid t : Nat) (st : FS) :
    (∀ a ∈ (fullRun alive avail dpid t st).2.1,
      a = Action.shutdown ∨ a = Action.writePortFile avail ∨
      a = Action.writeConfFile ∨ a = Action.startDaemon ∨
      a = Action.deletePidFile) ∧
    Action.removeLocation ∉ (fullRun alive avail dpid t st).2.1 ∧
    clean true true = [Action.removeLocation] := by
  have hmem : ∀ a ∈ (fullRun alive avail dpid t st).2.1,
      a = Action.shutdown ∨ a = Action.writePortFile avail ∨
      a = Action.writeConfFile ∨ a = Action.startDaemon ∨
      a = Action.deletePidFile := by
    intro a ha
    have : (fullRun alive avail dpid t st).2.1 =
        (check_and_clean_pid alive st).2 ++
          (run avail dpid t (check_and_clean_pid alive st).1).2.1 := rfl
    rw [this] at ha
    rcases List.mem_append.mp ha with h | h
    · exact .inr (.inr (.inr (.inr (heal_acts_sub alive st a h))))
    · rcases run_acts_sub avail dpid t (check_and_clean_pid alive st).1 a h with
        h' | h' | h' | h'
      · exact .inl h'
      · exact .inr (.inl h')
      · exact .inr (.inr (.inl h'))
      · exact .inr (.inr (.inr (.inl h')))
  refine ⟨hmem, ?_, rfl⟩
  intro hmem2
  rcases hmem _ hmem2 with h | h | h | h | h <;> simp at h

/-- C9 witness: at a state that shuts down, rewrites and restarts, the
location directory is not removed. -/
theorem run_frame_witness :
    Action.removeLocation ∉
      (fullRun (fun _ => true) 9001 42 10 ⟨some 3, some 7, none, [5]⟩).2.1 :=
  (run_frame (fun _ => true) 9001 42 10 ⟨some 3, some 7, none, [5]⟩).2.1

/-- C10: when the resolved included-file list is empty, the staleness
check raises and `run` aborts before performing any action; when the
config file exists the raised error is precisely the `ValueError` of
`max([])`, and on a fresh instance (no config file) `run` still aborts
with the `os.stat` error. -/
theorem run_empty_resolved_aborts (avail dpid t : Nat) (st : FS)
    (h : st.resolvedMtimes = []) :
    (∃ e, run avail dpid t st = (st, [], Except.error e)) ∧
    (∀ m, st.confMtime = some m →
      run avail dpid t st = (st, [], Except.error StatErr.emptyMax)) := by
  have herr : ∀ e', needs_new_config st = .error e' →
      run avail dpid t st = (st, [], .error e') := by
    intro e' he
    unfold run
    rw [he]
  constructor
  · cases hc : st.confMtime with
    | none => exact ⟨.confStat, herr _ (by simp [needs_new_config, hc])⟩
    | some m => exact ⟨.emptyMax, herr _ (by simp [needs_new_config, hc, h])⟩
  · intro m hm
    exact herr _ (by simp [needs_new_config, hm, h])

/-- C10 witness: a state with a config file but no resolved files
aborts with the empty-`max` error and no actions. -/
theorem run_empty_resolved_aborts_witness :
    run 9001 42 10 ⟨some 3, some 7, none, []⟩ =
      (⟨some 3, some 7, none, []⟩, [], Except.error StatErr.emptyMax) :=
  (run_empty_resolved_aborts 9001 42 10 ⟨some 3, some 7, none, []⟩ rfl).2 3 rfl
